import Mathlib

/-!
Verification development for the next-rest-framework patch.

The repository's own code under verification is
`packages/next-rest-framework/src/utils/logging.ts`; its behaviour is
embedded below as pure functions over an explicit global-state record
(the TypeScript code mutates fields of `global` and writes to the
console; here each function returns the updated state together with the
list of emitted console lines).  Components of the library that are not
present in the sources (the request dispatcher, the schema-validator
adapter and the OpenAPI spec builder — only their tests are in the
repository) are modelled from the specification; each such definition
carries a doc comment starting with `Modelled from the spec:`.

Chalk colour wrappers around console output are presentation only and
are dropped: a log event is its severity plus its uncoloured text.
-/

namespace NRF

/-- A configuration value as compared by `logInitInfo`.  The TypeScript
code compares configurations with lodash `isEqualWith` plus a customizer
that compares two function values by their serialized source text
(`val1.toString() === val2.toString()`); everything else is deep
structural comparison.  We embed a function value as its source text
(`func src`), so that the customizer's equality is exactly structural
equality of `CVal`.  Objects are field lists in construction order. -/
inductive CVal where
  | str (s : String)
  | num (n : Int)
  | boolean (b : Bool)
  | func (src : String)
  | obj (fields : List (String × CVal))

mutual

/-- Deep configuration equality: lodash `isEqualWith` with the
function-source customizer.  Two leaves of different kinds (e.g. a
function and a string) are unequal, two functions compare by source
text, and objects compare field by field. -/
def cvalEq : CVal → CVal → Bool
  | .str a, .str b => a == b
  | .num a, .num b => a == b
  | .boolean a, .boolean b => a == b
  | .func a, .func b => a == b
  | .obj f1, .obj f2 => cvalFieldsEq f1 f2
  | _, _ => false

/-- Field-list part of `cvalEq`. -/
def cvalFieldsEq : List (String × CVal) → List (String × CVal) → Bool
  | [], [] => true
  | (k1, v1) :: t1, (k2, v2) :: t2 =>
      k1 == k2 && cvalEq v1 v2 && cvalFieldsEq t1 t2
  | _, _ => false

end

/-- The three reserved-path config keys named by `warnAboutReservedPath`'s
`configName` argument. -/
inductive ConfigName where
  | openApiJsonPath
  | openApiYamlPath
  | swaggerUiPath
deriving Repr, DecidableEq

def ConfigName.render : ConfigName → String
  | .openApiJsonPath => "openApiJsonPath"
  | .openApiYamlPath => "openApiYamlPath"
  | .swaggerUiPath => "swaggerUiPath"

/-- The mutable fields of `global` that `logging.ts` reads and writes.
In Node a never-assigned global is `undefined`, which every boolean test
in the file treats as `false`; the config slot is `Option`al. -/
structure GState where
  nextRestFrameworkConfig : Option CVal
  reservedPathsLogged : Bool
  reservedOpenApiJsonPathWarningLogged : Bool
  reservedOpenApiYamlPathWarningLogged : Bool
  reservedSwaggerUiPathWarningLogged : Bool

/-- The process state before any framework code has run. -/
def initialGState : GState :=
  { nextRestFrameworkConfig := none
    reservedPathsLogged := false
    reservedOpenApiJsonPathWarningLogged := false
    reservedOpenApiYamlPathWarningLogged := false
    reservedSwaggerUiPathWarningLogged := false }

/-- Read the per-path warning flag named by a `ConfigName`. -/
def GState.warningFlag (g : GState) : ConfigName → Bool
  | .openApiJsonPath => g.reservedOpenApiJsonPathWarningLogged
  | .openApiYamlPath => g.reservedOpenApiYamlPathWarningLogged
  | .swaggerUiPath => g.reservedSwaggerUiPathWarningLogged

/-- A console line: severity and uncoloured text. -/
inductive Log where
  | info (s : String)
  | warn (s : String)
  | error (s : String)
deriving Repr, DecidableEq

/-- Template-string rendering of a possibly-undefined string value
(`undefined` interpolates as the text "undefined"). -/
def optStr : Option String → String
  | some s => s
  | none => "undefined"

def initializedBanner : String := "Next REST Framework initialized! 🚀"

def configChangedBanner : String :=
  "Next REST Framework config changed, re-initializing!"

/-- `logInitInfo` from `logging.ts`: compares the candidate config with
the stored one.  First ever call stores the config and logs the
initialization banner; a later call with a deep-unequal config logs the
changed banner, replaces the stored config and clears
`reservedPathsLogged`.  No other global field is written. -/
def logInitInfo (g : GState) (config : CVal) : GState × List Log :=
  let configsEqual :=
    match g.nextRestFrameworkConfig with
    | none => false
    | some stored => cvalEq stored config
  if g.nextRestFrameworkConfig.isNone then
    ({ g with nextRestFrameworkConfig := some config },
     [Log.info initializedBanner])
  else if !configsEqual then
    ({ g with
        nextRestFrameworkConfig := some config
        reservedPathsLogged := false },
     [Log.info configChangedBanner])
  else
    (g, [])

/-- The typed view of the config fields that the reserved-path logging
functions read.  All four are optional in `NextRestFrameworkConfig`. -/
structure NRFConfigView where
  openApiJsonPath : Option String
  openApiYamlPath : Option String
  swaggerUiPath : Option String
  exposeOpenApiSpec : Option Bool
deriving Repr, DecidableEq

/-- The request headers read by `logReservedPaths`. -/
structure Headers where
  xForwardedProto : Option String
  host : Option String
deriving Repr, DecidableEq

def reservedPathWarningText (path : Option String) (name : String)
    (configName : ConfigName) : String :=
  "Warning: " ++ optStr path ++ " is reserved for " ++ name ++
    ". Update " ++ configName.render ++
    " in your Next REST Framework config to use this path for other purposes."

/-- `warnAboutReservedPath` from `logging.ts`: unconditionally logs the
warning, then sets the single global flag selected by `configName`. -/
def warnAboutReservedPath (g : GState) (path : Option String)
    (name : String) (configName : ConfigName) : GState × List Log :=
  let g2 :=
    match configName with
    | .openApiJsonPath => { g with reservedOpenApiJsonPathWarningLogged := true }
    | .openApiYamlPath => { g with reservedOpenApiYamlPathWarningLogged := true }
    | .swaggerUiPath => { g with reservedSwaggerUiPathWarningLogged := true }
  (g2, [Log.warn (reservedPathWarningText path name configName)])

/-- `handleReservedPathWarnings` from `logging.ts`: three independent
`if` statements, executed in order on the shared global state; each
warns iff the request url equals that reserved path (JavaScript `===`,
so two `undefined`s are equal) and the per-path flag is not yet set. -/
def handleReservedPathWarnings (g : GState) (url : Option String)
    (c : NRFConfigView) : GState × List Log :=
  let s1 :=
    if url == c.openApiJsonPath && !g.reservedOpenApiJsonPathWarningLogged then
      warnAboutReservedPath g c.openApiJsonPath "OpenAPI JSON spec" .openApiJsonPath
    else (g, [])
  let s2 :=
    if url == c.openApiYamlPath && !s1.1.reservedOpenApiYamlPathWarningLogged then
      warnAboutReservedPath s1.1 c.openApiYamlPath "OpenAPI YAML spec" .openApiYamlPath
    else (s1.1, [])
  let s3 :=
    if url == c.swaggerUiPath && !s2.1.reservedSwaggerUiPathWarningLogged then
      warnAboutReservedPath s2.1 c.swaggerUiPath "Swagger UI" .swaggerUiPath
    else (s2.1, [])
  (s3.1, s1.2 ++ s2.2 ++ s3.2)

def specNotExposedText : String :=
  "OpenAPI spec is not exposed. To expose it, set exposeOpenApiSpec to true in the Next REST Framework config."

/-- `logReservedPaths` from `logging.ts`: builds a base URL from the
`x-forwarded-proto` header (defaulting to "http") and the `host` header,
logs one info line (the reserved-path banner when the spec is exposed,
otherwise the not-exposed notice), and unconditionally sets
`reservedPathsLogged`. -/
def logReservedPaths (g : GState) (c : NRFConfigView) (h : Headers) :
    GState × List Log :=
  let proto := h.xForwardedProto.getD "http"
  let baseUrl := proto ++ "://" ++ optStr h.host
  let line :=
    if c.exposeOpenApiSpec.getD false then
      Log.info ("Swagger UI: " ++ baseUrl ++ optStr c.swaggerUiPath ++
        "\nOpenAPI JSON: " ++ baseUrl ++ optStr c.openApiJsonPath ++
        "\nOpenAPI YAML: " ++ baseUrl ++ optStr c.openApiYamlPath)
    else
      Log.info specNotExposedText
  ({ g with reservedPathsLogged := true }, [line])

/-- `logNextRestFrameworkError` from `logging.ts`: outside production
the logged line embeds the error; in production it is a fixed
suppression notice. -/
def logNextRestFrameworkError (nodeEnv : String) (error : String) : Log :=
  if nodeEnv ≠ "production" then
    Log.error ("Next REST Framework encountered an error:\n" ++ error)
  else
    Log.error "Next REST Framework encountered an error - suppressed in production mode."

/-! ### Spec-modelled parts

The request dispatcher, schema-validator adapter and OpenAPI spec
builder are not part of the repository sources (only their tests are);
the definitions below are modelled from the specification. -/

/-- A JSON value, used for response bodies, middleware parameter values
and the OpenAPI document. -/
inductive JVal where
  | str (s : String)
  | num (n : Int)
  | boolean (b : Bool)
  | arr (xs : List JVal)
  | obj (fields : List (String × JVal))

/-- Modelled from the spec: an HTTP response as written by the
dispatcher — status code, headers and a JSON body. -/
structure Response where
  status : Nat
  headers : List (String × String)
  body : JVal

/-- Modelled from the spec: the default error message catalog
(`methodNotAllowed`, `notFound`, `invalidMediaType`, `unexpectedError`).
The spec fixes the catalog keys but not the literal English texts, so
each entry is modelled as a distinct abstract string named after its
key. -/
def DEFAULT_ERRORS : String → String := fun key => "DEFAULT_ERRORS." ++ key

def methodNotAllowedMsg : String := DEFAULT_ERRORS "methodNotAllowed"

def unexpectedErrorMsg : String := DEFAULT_ERRORS "unexpectedError"

/-- Modelled from the spec: the default error responder — status 500
with body `\x7bmessage: <unexpectedError text>\x7d`, independent of the
environment and of the error value. -/
def defaultErrorResponse : Response :=
  { status := 500
    headers := []
    body := JVal.obj [("message", JVal.str unexpectedErrorMsg)] }

/-- Which error-handler level ran for a request. -/
inductive HandlerLevel where
  | method
  | endpoint
  | globalLevel
  | defaultLevel
deriving Repr, DecidableEq

/-- A user error handler: it receives the error and writes a response. -/
def ErrHandler : Type := String → Response

/-- Modelled from the spec: when a handler or middleware throws, the
single most specific registered error handler runs — method-level over
endpoint-level over global — and only when none is registered does the
default run, logging the error (via `logNextRestFrameworkError`) and
writing the default 500 response.  The result records which level ran,
the response written, and the framework log lines emitted. -/
def handleRequestError (nodeEnv : String) (err : String)
    (methodEh endpointEh globalEh : Option ErrHandler) :
    HandlerLevel × Response × List Log :=
  match methodEh with
  | some h => (.method, h err, [])
  | none =>
    match endpointEh with
    | some h => (.endpoint, h err, [])
    | none =>
      match globalEh with
      | some h => (.globalLevel, h err, [])
      | none =>
        (.defaultLevel, defaultErrorResponse,
         [logNextRestFrameworkError nodeEnv err])

/-- Middleware parameters: a JSON object as a field list. -/
abbrev Params : Type := List (String × JVal)

/-- Modelled from the spec: merging a middleware step's returned fields
into the accumulated `params` object — fields of `b` override fields of
`a` with the same key. -/
def mergeParams (a b : Params) : Params :=
  a.filter (fun kv => (b.lookup kv.1).isNone) ++ b

/-- Modelled from the spec: one step of the middleware chain — an
absent middleware is a no-op passthrough, a present one is called with
the accumulated params and its return value is merged in. -/
def applyMiddleware (p : Params) : Option (Params → Params) → Params
  | none => p
  | some f => mergeParams p (f p)

/-- Modelled from the spec: the middleware chain — global middleware
first (called with no params, i.e. the empty object), then the
endpoint-level middleware on the accumulated result, then the
method-level middleware; the final accumulated object is what the
handler receives as `params`. -/
def runMiddlewareChain
    (globalMw endpointMw methodMw : Option (Params → Params)) : Params :=
  applyMiddleware (applyMiddleware (applyMiddleware [] globalMw) endpointMw)
    methodMw

/-- The recognized HTTP methods. -/
def validMethods : List String :=
  ["GET", "PUT", "POST", "DELETE", "OPTIONS", "HEAD", "PATCH", "TRACE"]

/-- ASCII uppercasing of a request method, modelling the JavaScript
`toUpperCase()` call on the method name. -/
def toUpperString (s : String) : String :=
  String.mk (s.data.map Char.toUpper)

/-- Lexicographic comparison of char lists by code point. -/
def charListLe : List Char → List Char → Bool
  | [], _ => true
  | _ :: _, [] => false
  | a :: as, b :: bs =>
    if a.toNat < b.toNat then true
    else if b.toNat < a.toNat then false
    else charListLe as bs

/-- Lexicographic string comparison by code point. -/
def strLe (a b : String) : Bool := charListLe a.data b.data

/-- Insertion of a string into a sorted list (ascending). -/
def insertSorted (s : String) : List String → List String
  | [] => [s]
  | x :: xs => if strLe s x then s :: x :: xs else x :: insertSorted s xs

/-- Insertion sort of strings, ascending. -/
def sortStrings (l : List String) : List String :=
  l.foldr insertSorted []

/-- Modelled from the spec: the 405 response — `Allow` header set to
the comma-joined sorted list of methods present in the endpoint table,
body `\x7bmessage: <methodNotAllowed text>\x7d`. -/
def methodNotAllowedResponse {α : Type} (table : List (String × α)) :
    Response :=
  { status := 405
    headers :=
      [("Allow", String.intercalate ", " (sortStrings (table.map Prod.fst)))]
    body := JVal.obj [("message", JVal.str methodNotAllowedMsg)] }

/-- Modelled from the spec: method dispatch — uppercase the request
method; a method outside the recognized set is unmatched, a recognized
method is looked up in the endpoint table; a miss yields the 405
response, a hit yields the registered method handler. -/
def dispatchByMethod {α : Type} (table : List (String × α))
    (reqMethod : String) : Except Response α :=
  let m := toUpperString reqMethod
  if validMethods.contains m then
    match table.lookup m with
    | some h => Except.ok h
    | none => Except.error (methodNotAllowedResponse table)
  else
    Except.error (methodNotAllowedResponse table)

/-- One field-level issue reported by the zod-like validator library:
a path and a message. -/
structure ZodIssue where
  path : List String
  message : String

/-- Modelled from the spec: the native failure shapes of the two
supported validator libraries — a zod-like library reports a list of
issue records, a yup-like library reports a list of error strings. -/
inductive ValidatorError where
  | zod (issues : List ZodIssue)
  | yup (errors : List String)

/-- Modelled from the spec: normalization of a native validator failure
into the ordered list of field-level message strings, one entry per
violation, in validator-reported order. -/
def validationErrorMessages : ValidatorError → List String
  | .zod issues => issues.map (fun i => i.message)
  | .yup errors => errors

/-- Modelled from the spec: the 400 response for a rejected request
body — the `message` field is the JSON array of the normalized
messages, never a single string. -/
def validationFailureResponse (e : ValidatorError) : Response :=
  { status := 400
    headers := []
    body := JVal.obj
      [("message", JVal.arr ((validationErrorMessages e).map JVal.str))] }

/-- OpenAPI info block. -/
structure OpenApiInfo where
  title : String
  description : String
  version : String

def defaultTitle : String := "Next REST Framework"

def defaultDescription : String :=
  "This is an autogenerated OpenAPI spec by Next REST Framework."

/-- Modelled from the spec: the OpenAPI spec builder — starts from
`\x7bopenapi: "3.0.1", info, components: \x7b\x7d, paths: \x7b\x7d\x7d`
and inserts one path-item entry per registered route. -/
def buildOpenApiSpec (info : OpenApiInfo) (paths : List (String × JVal)) :
    JVal :=
  JVal.obj
    [("openapi", JVal.str "3.0.1"),
     ("info", JVal.obj
       [("title", JVal.str info.title),
        ("description", JVal.str info.description),
        ("version", JVal.str info.version)]),
     ("components", JVal.obj []),
     ("paths", JVal.obj paths)]

def indentOf : Nat → String
  | 0 => ""
  | n + 1 => indentOf n ++ "  "

/-- Scalar rendering for the YAML serializer (strings print bare, as
the external YAML library prints the plain strings occurring in these
documents). -/
def scalarText : JVal → String
  | .str s => s
  | .num n => toString n
  | .boolean b => cond b "true" "false"
  | .arr _ => ""
  | .obj _ => ""

mutual

/-- Modelled from the spec: block-style YAML rendering of one mapping
entry — an empty object value renders inline as `\x7b\x7d`, a non-empty
object value as an indented block, a scalar inline.  The modelled
documents contain no arrays inside mappings. -/
def yamlEntry (ind : Nat) (k : String) : JVal → String
  | .obj [] => indentOf ind ++ k ++ ": \x7b\x7d\n"
  | .obj (f :: fs) => indentOf ind ++ k ++ ":\n" ++ yamlBlock (ind + 1) (f :: fs)
  | other => indentOf ind ++ k ++ ": " ++ scalarText other ++ "\n"

/-- Modelled from the spec: block-style YAML rendering of an object's
field list, in field order. -/
def yamlBlock (ind : Nat) : List (String × JVal) → String
  | [] => ""
  | (k, v) :: rest => yamlEntry ind k v ++ yamlBlock ind rest

end

/-- Modelled from the spec: YAML serialization of a document, keys in
the document's field order. -/
def toYAML : JVal → String
  | .obj fs => yamlBlock 0 fs
  | v => scalarText v ++ "\n"

/-- Top-level key order of a JSON document. -/
def topLevelKeys : JVal → List String
  | .obj fs => fs.map Prod.fst
  | _ => []

/-! ### Concrete data for the claims -/

/-- A stored configuration: the defaults with the spec exposed. -/
def c1StoredConfig : CVal :=
  CVal.obj [("exposeOpenApiSpec", CVal.boolean true)]

/-- A candidate configuration differing from `c1StoredConfig` in one
field. -/
def c1Candidate : CVal :=
  CVal.obj [("exposeOpenApiSpec", CVal.boolean false)]

/-- A process state holding `c1StoredConfig` in which every one-time
flag has already been set. -/
def c1State : GState :=
  { nextRestFrameworkConfig := some c1StoredConfig
    reservedPathsLogged := true
    reservedOpenApiJsonPathWarningLogged := true
    reservedOpenApiYamlPathWarningLogged := true
    reservedSwaggerUiPathWarningLogged := true }

/-- A configuration containing a function-valued field, embedded by its
source text. -/
def c3Config : CVal :=
  CVal.obj
    [("openApiJsonPath", CVal.str "/api/openapi.json"),
     ("errorHandler", CVal.func "() => \x7b\x7d")]

/-! ### Theorems -/

/-- C1 counterexample: the claim states that a config change resets all
one-time flags, including the three per-path reserved-path warning
flags; on a state where all flags are set and a candidate that differs
in one field, `logInitInfo` logs the re-initializing banner but all
three per-path warning flags are still `true` afterwards: the claim is
false as stated. -/
theorem c1_counterexample :
    cvalEq c1StoredConfig c1Candidate = false ∧
    (logInitInfo c1State c1Candidate).2 = [Log.info configChangedBanner] ∧
    (logInitInfo c1State c1Candidate).1.nextRestFrameworkConfig =
      some c1Candidate ∧
    (logInitInfo c1State c1Candidate).1.reservedOpenApiJsonPathWarningLogged =
      true ∧
    (logInitInfo c1State c1Candidate).1.reservedOpenApiYamlPathWarningLogged =
      true ∧
    (logInitInfo c1State c1Candidate).1.reservedSwaggerUiPathWarningLogged =
      true :=
  ⟨rfl, rfl, rfl, rfl, rfl, rfl⟩

/-- C1 (amended): for every stored configuration and every candidate
that differs from it, applying the candidate replaces the stored
config, logs exactly one re-initializing banner and resets the
reserved-path info-banner flag (`reservedPathsLogged`); the three
per-path reserved-path warning flags are left unchanged. -/
theorem c1_config_change_resets_only_banner_flag (g : GState)
    (stored cand : CVal) (hs : g.nextRestFrameworkConfig = some stored)
    (hneq : cvalEq stored cand = false) :
    logInitInfo g cand =
      ({ g with
          nextRestFrameworkConfig := some cand
          reservedPathsLogged := false },
       [Log.info configChangedBanner]) := by
  simp [logInitInfo, hs, hneq]

/-- C1 witness: the amended theorem applied at the counterexample
input. -/
theorem c1_config_change_witness :
    logInitInfo c1State c1Candidate =
      ({ c1State with
          nextRestFrameworkConfig := some c1Candidate
          reservedPathsLogged := false },
       [Log.info configChangedBanner]) :=
  c1_config_change_resets_only_banner_flag c1State c1StoredConfig
    c1Candidate rfl rfl

/-- C3: applying `logInitInfo` from the fresh process state stores the
config and logs the initialization banner once; a second call with a
deep-equal configuration (functions equal by source text) logs nothing
and leaves the state exactly as the first call left it. -/
theorem c3_reapply_equal_config_idempotent (c c2 : CVal)
    (heq : cvalEq c c2 = true) :
    logInitInfo initialGState c =
      ({ initialGState with nextRestFrameworkConfig := some c },
       [Log.info initializedBanner]) ∧
    logInitInfo { initialGState with nextRestFrameworkConfig := some c }
        c2 =
      ({ initialGState with nextRestFrameworkConfig := some c }, []) := by
  constructor
  · simp [logInitInfo, initialGState]
  · simp [logInitInfo, heq]

/-- C3 witness: re-applying a configuration with a function-valued
field whose source text is identical logs nothing the second time. -/
theorem c3_reapply_witness :
    cvalEq c3Config c3Config = true ∧
    logInitInfo { initialGState with nextRestFrameworkConfig := some c3Config }
        c3Config =
      ({ initialGState with nextRestFrameworkConfig := some c3Config }, []) :=
  ⟨rfl, (c3_reapply_equal_config_idempotent c3Config c3Config rfl).2⟩

/-- A sample custom error handler used as a witness input. -/
def sampleErrHandler : ErrHandler :=
  fun e => { status := 500, headers := [], body := JVal.str e }

/-- C2: exactly one error handler runs, chosen by precedence
method-level over endpoint-level over global over default; the
less-specific handlers are never invoked (the result is exactly the
chosen handler's response, with no other level recorded), and with no
custom handler registered anywhere the default logs the error and
responds with body `\x7bmessage: <unexpectedError text>\x7d`. -/
theorem c2_error_handler_precedence (nodeEnv err : String)
    (m e g : Option ErrHandler) :
    (∀ h, m = some h →
      handleRequestError nodeEnv err m e g = (.method, h err, [])) ∧
    (m = none → ∀ h, e = some h →
      handleRequestError nodeEnv err m e g = (.endpoint, h err, [])) ∧
    (m = none → e = none → ∀ h, g = some h →
      handleRequestError nodeEnv err m e g = (.globalLevel, h err, [])) ∧
    (m = none → e = none → g = none →
      handleRequestError nodeEnv err m e g =
        (.defaultLevel, defaultErrorResponse,
         [logNextRestFrameworkError nodeEnv err]) ∧
      defaultErrorResponse.status = 500 ∧
      defaultErrorResponse.body =
        JVal.obj [("message", JVal.str unexpectedErrorMsg)]) := by
  refine ⟨?_, ?_, ?_, ?_⟩
  · intro h hm; subst hm; rfl
  · intro hm h he; subst hm; subst he; rfl
  · intro hm he h hg; subst hm; subst he; subst hg; rfl
  · intro hm he hg; subst hm; subst he; subst hg
    exact ⟨rfl, rfl, rfl⟩

/-- C2 witness: a method-level handler alone handles the error, and
with no handler registered anywhere the default response and log are
produced. -/
theorem c2_error_handler_witness :
    handleRequestError "test" "boom" (some sampleErrHandler) none none =
      (.method, sampleErrHandler "boom", []) ∧
    handleRequestError "test" "boom" none none none =
      (.defaultLevel, defaultErrorResponse,
       [logNextRestFrameworkError "test" "boom"]) :=
  ⟨(c2_error_handler_precedence "test" "boom" (some sampleErrHandler)
      none none).1 sampleErrHandler rfl,
   ((c2_error_handler_precedence "test" "boom" none none none).2.2.2
      rfl rfl rfl).1⟩

/-- The test's global middleware: returns `\x7bfoo: "foo"\x7d`. -/
def c4GlobalMw : Params → Params :=
  fun _ => [("foo", JVal.str "foo")]

/-- The test's endpoint middleware: reads `foo` from its params and
returns `\x7bbar: "bar", foo\x7d`. -/
def c4EndpointMw : Params → Params :=
  fun p =>
    [("bar", JVal.str "bar"),
     ("foo", (p.lookup "foo").getD (JVal.str ""))]

/-- The test's method middleware: reads `foo` and `bar` from its params
and returns `\x7bfoo, bar, baz: "baz"\x7d`. -/
def c4MethodMw : Params → Params :=
  fun p =>
    [("foo", (p.lookup "foo").getD (JVal.str "")),
     ("bar", (p.lookup "bar").getD (JVal.str "")),
     ("baz", JVal.str "baz")]

/-- C4: the middleware chain composes left to right — the global
middleware runs on the empty params object, the endpoint middleware
receives the merged global result, the method middleware receives the
merge of the global and endpoint results, each return value merges into
the accumulated object, an absent step is a passthrough, and the
handler receives the final accumulation; on the middlewares of the
acceptance test the handler sees `foo`, `bar` and `baz`. -/
theorem c4_middleware_chain_composition
    (gmw emw mmw : Params → Params) (p : Params)
    (someE someM : Option (Params → Params)) :
    runMiddlewareChain (some gmw) (some emw) (some mmw) =
      mergeParams
        (mergeParams (mergeParams [] (gmw []))
          (emw (mergeParams [] (gmw []))))
        (mmw (mergeParams (mergeParams [] (gmw []))
          (emw (mergeParams [] (gmw []))))) ∧
    applyMiddleware p none = p ∧
    runMiddlewareChain none someE someM =
      applyMiddleware (applyMiddleware [] someE) someM ∧
    (runMiddlewareChain (some c4GlobalMw) (some c4EndpointMw)
        (some c4MethodMw)).lookup "foo" = some (JVal.str "foo") ∧
    (runMiddlewareChain (some c4GlobalMw) (some c4EndpointMw)
        (some c4MethodMw)).lookup "bar" = some (JVal.str "bar") ∧
    (runMiddlewareChain (some c4GlobalMw) (some c4EndpointMw)
        (some c4MethodMw)).lookup "baz" = some (JVal.str "baz") ∧
    c4EndpointMw (mergeParams [] (c4GlobalMw [])) =
      [("bar", JVal.str "bar"), ("foo", JVal.str "foo")] :=
  ⟨rfl, rfl, rfl, rfl, rfl, rfl, rfl⟩

/-- C6: every request body rejected by the declared input schema, under
either supported validator library, yields status 400 and a body whose
`message` field is the JSON array of the library's own field-level
error strings — one entry per violation, in validator-reported order,
never a single string. -/
theorem c6_validation_error_messages (e : ValidatorError)
    (issues : List ZodIssue) (errors : List String) :
    (validationFailureResponse e).status = 400 ∧
    (validationFailureResponse e).body =
      JVal.obj
        [("message",
          JVal.arr ((validationErrorMessages e).map JVal.str))] ∧
    validationErrorMessages (.zod issues) =
      issues.map (fun i => i.message) ∧
    (validationErrorMessages (.zod issues)).length = issues.length ∧
    validationErrorMessages (.yup errors) = errors := by
  refine ⟨rfl, rfl, rfl, ?_, rfl⟩
  simp [validationErrorMessages]

/-- C7: the environment flag never changes the default error response —
any two environments and any two errors produce the same response, with
the generic `unexpectedError` body — while the logged line is the fixed
suppression notice in production (identical for distinct errors) and
embeds the error itself outside production. -/
theorem c7_production_flag_noninterference (env env2 e e2 : String) :
    (handleRequestError env e none none none).2.1 =
      (handleRequestError env2 e2 none none none).2.1 ∧
    (handleRequestError env e none none none).2.1.body =
      JVal.obj [("message", JVal.str unexpectedErrorMsg)] ∧
    logNextRestFrameworkError "production" e =
      logNextRestFrameworkError "production" e2 ∧
    (env ≠ "production" →
      logNextRestFrameworkError env e =
        Log.error ("Next REST Framework encountered an error:\n" ++ e)) := by
  refine ⟨rfl, rfl, rfl, ?_⟩
  intro hne
  simp [logNextRestFrameworkError, hne]

/-- C7 witness: the noninterference theorem applied outside production
at two distinct errors. -/
theorem c7_noninterference_witness :
    (handleRequestError "development" "boom" none none none).2.1 =
      (handleRequestError "production" "oops" none none none).2.1 ∧
    logNextRestFrameworkError "development" "boom" =
      Log.error ("Next REST Framework encountered an error:\nboom") :=
  ⟨(c7_production_flag_noninterference "development" "production"
      "boom" "oops").1,
   (c7_production_flag_noninterference "development" "production"
      "boom" "oops").2.2.2 (by decide)⟩

/-- A sample endpoint table registering only GET. -/
def c5Table : List (String × Nat) := [("GET", 0)]

/-- Key lookup misses exactly when the key is not among the mapped
first components. -/
theorem lookup_eq_none_of_contains_false {α : Type} (k : String)
    (table : List (String × α))
    (h : (table.map Prod.fst).contains k = false) :
    table.lookup k = none := by
  induction table with
  | nil => rfl
  | cons hd tl ih =>
    simp only [List.map_cons, List.contains_cons, Bool.or_eq_false_iff] at h
    simp [List.lookup, h.1, ih h.2]

/-- C5: a request whose uppercased method is absent from the endpoint
table — in particular any method outside the recognized set — receives
the 405 response whose `Allow` header is the comma-joined sorted list of
the methods present in the table and whose body carries the
methodNotAllowed message. -/
theorem c5_method_not_allowed {α : Type} (table : List (String × α))
    (reqMethod : String)
    (habsent :
      (table.map Prod.fst).contains (toUpperString reqMethod) = false) :
    dispatchByMethod table reqMethod =
      Except.error (methodNotAllowedResponse table) ∧
    (methodNotAllowedResponse table).status = 405 ∧
    (methodNotAllowedResponse table).headers =
      [("Allow",
        String.intercalate ", " (sortStrings (table.map Prod.fst)))] ∧
    (methodNotAllowedResponse table).body =
      JVal.obj [("message", JVal.str methodNotAllowedMsg)] ∧
    sortStrings ["PUT", "GET", "POST"] = ["GET", "POST", "PUT"] := by
  refine ⟨?_, rfl, rfl, rfl, rfl⟩
  unfold dispatchByMethod
  cases hv : validMethods.contains (toUpperString reqMethod) <;>
    simp [hv,
      lookup_eq_none_of_contains_false (toUpperString reqMethod) table
        habsent]

/-- C5 witness: the theorem applied to a table registering only GET,
once for an unrecognized method and once for a recognized but
unregistered one. -/
theorem c5_method_not_allowed_witness :
    dispatchByMethod c5Table "FOO" =
      Except.error (methodNotAllowedResponse c5Table) ∧
    dispatchByMethod c5Table "post" =
      Except.error (methodNotAllowedResponse c5Table) ∧
    (methodNotAllowedResponse c5Table).headers = [("Allow", "GET")] :=
  ⟨(c5_method_not_allowed c5Table "FOO" (by decide)).1,
   (c5_method_not_allowed c5Table "post" (by decide)).1,
   rfl⟩

/-- C8: with the default configuration and no registered routes the
OpenAPI document is exactly
`\x7bopenapi: "3.0.1", info: defaults, components: \x7b\x7d,
paths: \x7b\x7d\x7d`; its YAML serialization lists the keys in the same
order as the JSON document's field order; and serialization of the same
input is byte-for-byte reproducible (the serializer is a pure
function). -/
theorem c8_default_openapi_document (version : String) (d : JVal) :
    buildOpenApiSpec ⟨defaultTitle, defaultDescription, version⟩ [] =
      JVal.obj
        [("openapi", JVal.str "3.0.1"),
         ("info", JVal.obj
           [("title", JVal.str "Next REST Framework"),
            ("description", JVal.str
              "This is an autogenerated OpenAPI spec by Next REST Framework."),
            ("version", JVal.str version)]),
         ("components", JVal.obj []),
         ("paths", JVal.obj [])] ∧
    topLevelKeys
        (buildOpenApiSpec ⟨defaultTitle, defaultDescription, version⟩ []) =
      ["openapi", "info", "components", "paths"] ∧
    toYAML (buildOpenApiSpec ⟨defaultTitle, defaultDescription, version⟩ []) =
      "openapi: 3.0.1\ninfo:\n  title: Next REST Framework\n  description: This is an autogenerated OpenAPI spec by Next REST Framework.\n  version: " ++
        version ++ "\ncomponents: \x7b\x7d\npaths: \x7b\x7d\n" ∧
    toYAML d = toYAML d := by
  refine ⟨rfl, rfl, ?_, rfl⟩
  simp only [toYAML, buildOpenApiSpec, yamlBlock, yamlEntry, indentOf,
    scalarText, String.append_assoc, String.append_empty,
    String.empty_append]
  try rfl

/-- The state in which all three per-path warning flags are set. -/
def c9AllFlagsState : GState :=
  { nextRestFrameworkConfig := none
    reservedPathsLogged := false
    reservedOpenApiJsonPathWarningLogged := true
    reservedOpenApiYamlPathWarningLogged := true
    reservedSwaggerUiPathWarningLogged := true }

/-- C9: `warnAboutReservedPath` unconditionally emits exactly one
warning and sets exactly the flag named by `configName`, leaving the
other two flags, the stored config and the banner flag unchanged; the
at-most-once behaviour lives in `handleReservedPathWarnings`, which
skips every warning once the flags are set; and because its three
checks are independent, a url equal to two identically-configured
reserved paths triggers both warnings in one call. -/
theorem c9_warn_frame_and_independent_checks (g : GState)
    (path : Option String) (name : String) (cn : ConfigName)
    (gAll : GState) (url2 : Option String) (c2 : NRFConfigView)
    (u : String)
    (h1 : gAll.reservedOpenApiJsonPathWarningLogged = true)
    (h2 : gAll.reservedOpenApiYamlPathWarningLogged = true)
    (h3 : gAll.reservedSwaggerUiPathWarningLogged = true) :
    (warnAboutReservedPath g path name cn).2 =
      [Log.warn (reservedPathWarningText path name cn)] ∧
    (warnAboutReservedPath g path name cn).1.warningFlag cn = true ∧
    (∀ cn2, cn2 ≠ cn →
      (warnAboutReservedPath g path name cn).1.warningFlag cn2 =
        g.warningFlag cn2) ∧
    (warnAboutReservedPath g path name cn).1.nextRestFrameworkConfig =
      g.nextRestFrameworkConfig ∧
    (warnAboutReservedPath g path name cn).1.reservedPathsLogged =
      g.reservedPathsLogged ∧
    handleReservedPathWarnings gAll url2 c2 = (gAll, []) ∧
    (handleReservedPathWarnings initialGState (some u)
        { openApiJsonPath := some u
          openApiYamlPath := some u
          swaggerUiPath := none
          exposeOpenApiSpec := some true }).2 =
      [Log.warn
        (reservedPathWarningText (some u) "OpenAPI JSON spec"
          .openApiJsonPath),
       Log.warn
        (reservedPathWarningText (some u) "OpenAPI YAML spec"
          .openApiYamlPath)] := by
  refine ⟨rfl, ?_, ?_, ?_, ?_, ?_, ?_⟩
  · cases cn <;> rfl
  · intro cn2 hne
    cases cn <;> cases cn2 <;>
      simp_all [warnAboutReservedPath, GState.warningFlag]
  · cases cn <;> rfl
  · cases cn <;> rfl
  · simp [handleReservedPathWarnings, h1, h2, h3]
  · simp [handleReservedPathWarnings, warnAboutReservedPath,
      initialGState]

/-- C9 witness: the frame theorem applied at concrete inputs — warning
about the Swagger UI path leaves the JSON-path flag untouched, a state
with all flags set yields no warnings, and a config whose JSON and YAML
paths coincide warns twice on one request. -/
theorem c9_warn_frame_witness :
    (warnAboutReservedPath initialGState (some "/api") "Swagger UI"
        .swaggerUiPath).1.warningFlag .openApiJsonPath =
      initialGState.warningFlag .openApiJsonPath ∧
    handleReservedPathWarnings c9AllFlagsState (some "/api")
        { openApiJsonPath := some "/api"
          openApiYamlPath := none
          swaggerUiPath := none
          exposeOpenApiSpec := none } =
      (c9AllFlagsState, []) ∧
    (handleReservedPathWarnings initialGState (some "/docs")
        { openApiJsonPath := some "/docs"
          openApiYamlPath := some "/docs"
          swaggerUiPath := none
          exposeOpenApiSpec := some true }).2 =
      [Log.warn
        (reservedPathWarningText (some "/docs") "OpenAPI JSON spec"
          .openApiJsonPath),
       Log.warn
        (reservedPathWarningText (some "/docs") "OpenAPI YAML spec"
          .openApiYamlPath)] := by
  have h := c9_warn_frame_and_independent_checks initialGState
    (some "/api") "Swagger UI" .swaggerUiPath c9AllFlagsState
    (some "/api")
    { openApiJsonPath := some "/api"
      openApiYamlPath := none
      swaggerUiPath := none
      exposeOpenApiSpec := none } "/docs" rfl rfl rfl
  exact ⟨h.2.2.1 .openApiJsonPath (by decide), h.2.2.2.2.2.1,
    h.2.2.2.2.2.2⟩

/-- C10: `logReservedPaths` always sets the `reservedPathsLogged` flag
and prints exactly one info line; when the spec is exposed the line is
the reserved-path banner over the base url
`<x-forwarded-proto, defaulting to http>://<host>`, and when it is not,
the one-time not-exposed notice. -/
theorem c10_log_reserved_paths_once (g : GState) (c : NRFConfigView)
    (h : Headers) (proto ho : String) :
    (logReservedPaths g c h).1 = { g with reservedPathsLogged := true } ∧
    (logReservedPaths g c h).2.length = 1 ∧
    (c.exposeOpenApiSpec = some true →
      (logReservedPaths g c ⟨some proto, some ho⟩).2 =
        [Log.info ("Swagger UI: " ++ (proto ++ "://" ++ ho) ++
          optStr c.swaggerUiPath ++ "\nOpenAPI JSON: " ++
          (proto ++ "://" ++ ho) ++ optStr c.openApiJsonPath ++
          "\nOpenAPI YAML: " ++ (proto ++ "://" ++ ho) ++
          optStr c.openApiYamlPath)]) ∧
    (c.exposeOpenApiSpec = some true →
      (logReservedPaths g c ⟨none, some ho⟩).2 =
        [Log.info ("Swagger UI: " ++ ("http://" ++ ho) ++
          optStr c.swaggerUiPath ++ "\nOpenAPI JSON: " ++
          ("http://" ++ ho) ++ optStr c.openApiJsonPath ++
          "\nOpenAPI YAML: " ++ ("http://" ++ ho) ++
          optStr c.openApiYamlPath)]) ∧
    (c.exposeOpenApiSpec = none ∨ c.exposeOpenApiSpec = some false →
      (logReservedPaths g c h).2 = [Log.info specNotExposedText]) := by
  refine ⟨rfl, rfl, ?_, ?_, ?_⟩
  · intro hexp
    simp [logReservedPaths, hexp, optStr]
  · intro hexp
    simp [logReservedPaths, hexp, optStr]
  · intro hdis
    rcases hdis with hnone | hfalse
    · simp [logReservedPaths, hnone]
    · simp [logReservedPaths, hfalse]

/-- C10 witness: the default configuration's reserved paths logged for
host localhost:3000 with no forwarded protocol, and the not-exposed
notice for a config that hides the spec. -/
theorem c10_log_reserved_paths_witness :
    (logReservedPaths initialGState
        { openApiJsonPath := some "/api/openapi.json"
          openApiYamlPath := some "/api/openapi.yaml"
          swaggerUiPath := some "/api"
          exposeOpenApiSpec := some true }
        ⟨none, some "localhost:3000"⟩).2 =
      [Log.info
        "Swagger UI: http://localhost:3000/api\nOpenAPI JSON: http://localhost:3000/api/openapi.json\nOpenAPI YAML: http://localhost:3000/api/openapi.yaml"] ∧
    (logReservedPaths initialGState
        { openApiJsonPath := some "/api/openapi.json"
          openApiYamlPath := some "/api/openapi.yaml"
          swaggerUiPath := some "/api"
          exposeOpenApiSpec := some false }
        ⟨none, some "localhost:3000"⟩).2 =
      [Log.info specNotExposedText] := by
  constructor
  · exact (c10_log_reserved_paths_once initialGState
      { openApiJsonPath := some "/api/openapi.json"
        openApiYamlPath := some "/api/openapi.yaml"
        swaggerUiPath := some "/api"
        exposeOpenApiSpec := some true }
      ⟨none, some "localhost:3000"⟩ "http" "localhost:3000").2.2.2.1 rfl
  · exact (c10_log_reserved_paths_once initialGState
      { openApiJsonPath := some "/api/openapi.json"
        openApiYamlPath := some "/api/openapi.yaml"
        swaggerUiPath := some "/api"
        exposeOpenApiSpec := some false }
      ⟨none, some "localhost:3000"⟩ "http" "localhost:3000").2.2.2.2
      (Or.inr rfl)

end NRF
